import Mathlib

/-!
Verification development for the voice-verification pipeline of
`backend/app/services/voice_service.py`.

The embedding is metadata-level: a decoded audio buffer is modelled by its
channel count, sample rate and per-channel sample count, because every
property under study concerns shapes, durations, control flow, returned
tuples and the fingerprint arithmetic — never individual sample values.
Python floats are modelled as rationals, `torchaudio.load` results as
`Option Waveform` (`none` = the load raised), and the bounded random
perturbation of the fallback comparator as an explicit parameter.
-/

namespace Vani

/-- Metadata of a decoded audio tensor as produced by `torchaudio.load` /
`soundfile`: channel count (`shape[0]`), sample rate, per-channel sample
count (`shape[1]`). -/
structure Waveform where
  channels : Nat
  sr : Nat
  count : Nat
deriving DecidableEq, Repr

/-- Embeds `VoiceService.validate_audio_file`.  The argument is the outcome
of `torchaudio.load` on the file (`none` when loading raised, caught by the
`except` clause).  A zero sample rate would make `waveform.shape[1] / sr`
raise `ZeroDivisionError`, also caught, hence `false`. -/
def validateAudioFile : Option Waveform → Bool
  | none => false
  | some w =>
    if w.channels = 0 then false
    else if w.sr = 0 then false
    else if ((w.count : ℚ) / (w.sr : ℚ)) < 2 then false
    else true

/-- The record built by `MockVoiceVerifier._get_detailed_fingerprint`
(scalar acoustic features of one audio file; the `file_path` debug entry is
omitted as it is never compared). -/
structure Fingerprint where
  mean : ℚ
  std : ℚ
  dur : ℚ
  energy : ℚ
  zcr : ℚ
  energy_variance : ℚ
  energy_skewness : ℚ
  pitch_strength : ℚ
  pitch_location : ℤ
  sample_count : Nat
deriving DecidableEq, Repr

/-- The `features` table of `MockVoiceVerifier._calculate_speaker_similarity`:
selector, weight, scale — `(mean, 0.15, 100)`, `(std, 0.15, 50)`,
`(energy, 0.20, 10000)`, `(zcr, 0.20, 1000)`, `(energy_variance, 0.15, 1000)`,
`(energy_skewness, 0.10, 10)`, `(pitch_strength, 0.05, 100)`. -/
def features : List ((Fingerprint → ℚ) × ℚ × ℚ) :=
  [ (Fingerprint.mean, 3/20, 100)
  , (Fingerprint.std, 3/20, 50)
  , (Fingerprint.energy, 1/5, 10000)
  , (Fingerprint.zcr, 1/5, 1000)
  , (Fingerprint.energy_variance, 3/20, 1000)
  , (Fingerprint.energy_skewness, 1/10, 10)
  , (Fingerprint.pitch_strength, 1/20, 100) ]

/-- Per-feature similarity: `max(0.0, 1.0 - (diff * scale))` where
`diff = abs(fp1[feature] - fp2[feature])`. -/
def featureSimilarity (a b scale : ℚ) : ℚ := max 0 (1 - |a - b| * scale)

/-- The `total_similarity` accumulator: sum over the feature table of
`similarity * weight` (every feature key is present in both records, since
`_get_detailed_fingerprint` always builds the full dict). -/
def totalSimilarity (fp1 fp2 : Fingerprint) : ℚ :=
  (features.map (fun fws => featureSimilarity (fws.1 fp1) (fws.1 fp2) fws.2.2 * fws.2.1)).sum

/-- The `total_weight` accumulator: sum of the weights of the feature table. -/
def totalWeight : ℚ := (features.map (fun fws => fws.2.1)).sum

/-- The `base_similarity` of `_calculate_speaker_similarity`:
`total_similarity / total_weight` when `total_weight > 0`, else `0`. -/
def baseSimilarity (fp1 fp2 : Fingerprint) : ℚ :=
  if 0 < totalWeight then totalSimilarity fp1 fp2 / totalWeight else 0

/-- Embeds `MockVoiceVerifier._calculate_speaker_similarity`.  `variation`
models `random.uniform(-0.05, 0.05)`; the final score is
`max(0.0, min(1.0, base_similarity + variation))`.  When either fingerprint
is the `None` sentinel (`if not fp1 or not fp2`), the result is `0.0`. -/
def calculateSpeakerSimilarity : Option Fingerprint → Option Fingerprint → ℚ → ℚ
  | some f1, some f2, variation => max 0 (min 1 (baseSimilarity f1 f2 + variation))
  | _, _, _ => 0

/-- The threshold hard-coded inside `MockVoiceVerifier.verify_files`
(`threshold = 0.6`, the fallback backend). -/
def mockVerifierThreshold : ℚ := 3/5

/-- Embeds the main path of `MockVoiceVerifier.verify_files`: the score and
the internal prediction `similarity > threshold`. -/
def mockVerifyFiles (fp1 fp2 : Option Fingerprint) (variation : ℚ) : ℚ × Bool :=
  let s := calculateSpeakerSimilarity fp1 fp2 variation
  (s, decide (mockVerifierThreshold < s))

/-- The default value of the `threshold` parameter of
`VoiceService.verify_voice` (`threshold: float = 0.6`), i.e. the threshold
applied when no caller-supplied value overrides it — including when the
primary embedding backend is active. -/
def verifyVoiceDefaultThreshold : ℚ := 3/5

/-- The `(score, is_match, message)` tuple returned by
`VoiceService.verify_voice`. -/
structure VerifyResult where
  score : ℚ
  isMatch : Bool
  message : String
deriving DecidableEq, Repr

/-- Embeds `VoiceService.verify_voice` (the verifier handle is assumed
present: `_load_model` always installs at least the mock).  `backend`
abstracts `self.verifier.verify_files`, thunked, yielding the score; the
mock's own prediction is discarded, since the caller recomputes
`is_same_speaker = similarity_score > threshold`. -/
def verifyVoice (backend : Unit → ℚ) (ref test : Option Waveform) (threshold : ℚ) : VerifyResult :=
  if validateAudioFile ref = false then
    ⟨0, false, "Invalid reference audio file"⟩
  else if validateAudioFile test = false then
    ⟨0, false, "Invalid test audio file"⟩
  else
    let s := backend ()
    ⟨s, decide (threshold < s),
      if threshold < s then "Voice verified successfully" else "Voice verification failed"⟩

/-- Whether control in `verify_voice` reaches the call
`self.verifier.verify_files(reference_file, test_file)`: both validations
must have passed. -/
def verifyInvokesBackend (ref test : Option Waveform) : Bool :=
  validateAudioFile ref && validateAudioFile test

/-- What `VoiceService.process_web_audio` hands back on success: the output
path `f"\x7buuid4()\x7d.wav"` (the uuid is a parameter here) and, as the
observable content of the file written there, the processed waveform. -/
structure ProcessResult where
  path : String
  wave : Waveform
deriving DecidableEq, Repr

/-- The `duration_seconds = 10` of the synthesized last-resort test audio. -/
def placeholderDurationSeconds : Nat := 10

/-- The synthesized placeholder tone of `process_web_audio`: mono
(`unsqueeze(0)`), at `target_sr`, with `int(target_sr * duration_seconds)`
samples.  The sample values (a 440 Hz + 880 Hz sine mix) are below the
granularity of this model. -/
def placeholderWave (targetSr : Nat) : Waveform :=
  ⟨1, targetSr, targetSr * placeholderDurationSeconds⟩

/-- Output length of `torchaudio.transforms.Resample`:
`ceil(count * newSr / origSr)`. -/
def resampleCount (count origSr newSr : Nat) : Nat :=
  (count * newSr + origSr - 1) / origSr

/-- The resampling section of `process_web_audio`: only applied when the
detected rate differs from `target_sr`. -/
def resampleStep (targetSr : Nat) (w : Waveform) : Waveform :=
  if w.sr ≠ targetSr then ⟨w.channels, targetSr, resampleCount w.count w.sr targetSr⟩ else w

/-- The mono-downmix section of `process_web_audio`: averaging collapses the
channel dimension to 1 and keeps the sample count. -/
def monoStep (w : Waveform) : Waveform :=
  if 1 < w.channels then ⟨1, w.sr, w.count⟩ else w

/-- The minimum-duration padding section of `process_web_audio`:
`min_samples = int(2.0 * target_sr)`; right-pad when shorter. -/
def padStep (targetSr : Nat) (w : Waveform) : Waveform :=
  if w.count < 2 * targetSr then ⟨w.channels, w.sr, 2 * targetSr⟩ else w

/-- Embeds `VoiceService.process_web_audio`.  `blobLen` is `len(audio_data)`
(zero raises `ValueError`, modelled `none`); `decoded` is the first
successful outcome of the ordered decode attempts (WebM, WAV, ogg/mp3/m4a),
`none` when every attempt failed, in which case the placeholder tone is
synthesized and processing continues. -/
def processWebAudio (targetSr : Nat) (uuid : String) (blobLen : Nat)
    (decoded : Option Waveform) : Option ProcessResult :=
  if blobLen = 0 then none
  else
    let w := decoded.getD (placeholderWave targetSr)
    some ⟨uuid ++ ".wav", padStep targetSr (monoStep (resampleStep targetSr w))⟩

/-- The canonical reference path of `create_voice_profile` /
`get_profile_path`: `profiles/{student_id}_profile.wav` (relative to the
upload directory). -/
def profilePath (studentId : String) : String :=
  "profiles/" ++ studentId ++ "_profile.wav"

/-- Filesystem operations performed while persisting a profile. -/
inductive FsOp where
  | makedirs (path : String)
  | save (path : String)
  | move (src dst : String)
deriving DecidableEq, Repr

/-- Whether an operation is a move/rename. -/
def FsOp.isMove : FsOp → Bool
  | FsOp.move _ _ => true
  | _ => false

/-- Embeds `VoiceService.create_voice_profile` on an existing file.
`loaded` is the outcome of `torchaudio.load(audio_file_path)`.  The interpolated
measured-duration details of the failure messages are elided.  Returns the
`(success, message-or-path)` pair. -/
def createVoiceProfile (studentId : String) (loaded : Option Waveform) : Bool × String :=
  match loaded with
  | none => (false, "Failed to load audio file")
  | some w =>
    if w.sr = 0 then (false, "division by zero")
    else if ((w.count : ℚ) / (w.sr : ℚ)) < 3 then
      (false, "Audio too short (minimum 3s required)")
    else (true, profilePath studentId)

/-- The filesystem operations `create_voice_profile` performs on the success
path: `os.makedirs(profile_dir, exist_ok=True)` followed directly by
`torchaudio.save(profile_path, waveform, sr)` at the final path. -/
def createVoiceProfileOps (studentId : String) (loaded : Option Waveform) : List FsOp :=
  match loaded with
  | none => []
  | some w =>
    if w.sr = 0 then []
    else if ((w.count : ℚ) / (w.sr : ℚ)) < 3 then []
    else [FsOp.makedirs "profiles", FsOp.save (profilePath studentId)]

/-- Embeds `VoiceService.create_voice_profile_from_upload`: process the raw
upload, then enroll the processed file (whose load trivially succeeds, it
was just saved); a raised `ValueError` from processing is caught and turned
into a `(False, message)` result. -/
def createVoiceProfileFromUpload (studentId uuid : String) (blobLen : Nat)
    (decoded : Option Waveform) : Bool × String :=
  match processWebAudio 16000 uuid blobLen decoded with
  | none => (false, "Empty audio data received")
  | some r => createVoiceProfile studentId (some r.wave)

/-- A concrete all-zero fingerprint, used as a test fixture. -/
def zeroFingerprint : Fingerprint := ⟨0, 0, 0, 0, 0, 0, 0, 0, 0, 0⟩

lemma totalWeight_eq_one : totalWeight = 1 := by
  norm_num [totalWeight, features]

lemma totalSimilarity_self (f : Fingerprint) : totalSimilarity f f = 1 := by
  norm_num [totalSimilarity, features, featureSimilarity]

lemma processWebAudio_undecodable (t : Nat) (u : String) (n : Nat) (hn : 0 < n) :
    processWebAudio t u n none = some ⟨u ++ ".wav", placeholderWave t⟩ := by
  unfold processWebAudio
  rw [if_neg (by omega)]
  have h1 : resampleStep t (placeholderWave t) = placeholderWave t := by
    simp [resampleStep, placeholderWave]
  have h2 : monoStep (placeholderWave t) = placeholderWave t := by
    simp [monoStep, placeholderWave]
  have h3 : padStep t (placeholderWave t) = placeholderWave t := by
    have hcount : (placeholderWave t).count = t * 10 := rfl
    unfold padStep
    rw [if_neg (by rw [hcount]; omega)]
  simp [Option.getD, h1, h2, h3]

lemma resampleCount_le_32000 (c s : Nat) (hs : 0 < s) (h : c < 2 * s) :
    resampleCount c s 16000 ≤ 32000 := by
  unfold resampleCount
  have h2 : (c * 16000 + s - 1) / s < 32001 :=
    (Nat.div_lt_iff_lt_mul hs).mpr (by omega)
  omega

/-- Claim C1, counterexample.  With a valid 2 s reference and a too-short
1 s test file, `verify_voice` does return a zero score and a `false` match,
but its message is "Invalid test audio file", not the literal tuple
`(0.0, false, "invalid audio")` the claim states. -/
theorem C1_message_counterexample :
    verifyVoice (fun _ => 1) (some ⟨1, 16000, 32000⟩) (some ⟨1, 16000, 16000⟩) (3/5)
        ≠ ⟨0, false, "invalid audio"⟩ ∧
    validateAudioFile (some ⟨1, 16000, 16000⟩) = false := by
  have h : verifyVoice (fun _ => 1) (some ⟨1, 16000, 32000⟩) (some ⟨1, 16000, 16000⟩) (3/5)
      = ⟨0, false, "Invalid test audio file"⟩ := by
    norm_num [verifyVoice, validateAudioFile]
  refine ⟨?_, by norm_num [validateAudioFile]⟩
  rw [h]
  intro hc
  exact absurd (congrArg VerifyResult.message hc) (by decide)

/-- Claim C1, amended.  If either the reference or the test waveform fails
`validate_audio_file`, then for every backend and threshold `verify_voice`
returns score `0.0`, match `false`, and an invalid-audio message naming the
offending file ("Invalid reference audio file" or "Invalid test audio
file"), and control never reaches the backend comparison
`self.verifier.verify_files`. -/
theorem C1_invalid_rejected (backend : Unit → ℚ) (ref test : Option Waveform) (t : ℚ)
    (h : validateAudioFile ref = false ∨ validateAudioFile test = false) :
    (verifyVoice backend ref test t).score = 0 ∧
    (verifyVoice backend ref test t).isMatch = false ∧
    ((verifyVoice backend ref test t).message = "Invalid reference audio file" ∨
      (verifyVoice backend ref test t).message = "Invalid test audio file") ∧
    verifyInvokesBackend ref test = false := by
  unfold verifyVoice verifyInvokesBackend
  rcases h with h | h
  · simp [h]
  · cases hre : validateAudioFile ref <;> simp [h, hre]

/-- Claim C1, witness: the amended theorem applied to a 1 s (invalid)
reference file. -/
theorem C1_witness :
    (validateAudioFile (some ⟨1, 16000, 16000⟩) = false ∨
      validateAudioFile (some ⟨1, 16000, 48000⟩) = false) ∧
    ((verifyVoice (fun _ => 1) (some ⟨1, 16000, 16000⟩) (some ⟨1, 16000, 48000⟩)
        (3/5)).score = 0 ∧
      (verifyVoice (fun _ => 1) (some ⟨1, 16000, 16000⟩) (some ⟨1, 16000, 48000⟩)
        (3/5)).isMatch = false ∧
      ((verifyVoice (fun _ => 1) (some ⟨1, 16000, 16000⟩) (some ⟨1, 16000, 48000⟩)
          (3/5)).message = "Invalid reference audio file" ∨
        (verifyVoice (fun _ => 1) (some ⟨1, 16000, 16000⟩) (some ⟨1, 16000, 48000⟩)
          (3/5)).message = "Invalid test audio file") ∧
      verifyInvokesBackend (some ⟨1, 16000, 16000⟩) (some ⟨1, 16000, 48000⟩) = false) :=
  ⟨Or.inl (by norm_num [validateAudioFile]),
    C1_invalid_rejected (fun _ => 1) (some ⟨1, 16000, 16000⟩) (some ⟨1, 16000, 48000⟩)
      (3/5) (Or.inl (by norm_num [validateAudioFile]))⟩

/-- Claim C2, counterexample.  The default threshold of `verify_voice`
(`0.6`, applied whatever backend is active) is not strictly higher than the
threshold hard-coded in the fingerprint fallback `verify_files` (also
`0.6`): the two are equal. -/
theorem C2_thresholds_counterexample :
    ¬ (mockVerifierThreshold < verifyVoiceDefaultThreshold) := by
  norm_num [mockVerifierThreshold, verifyVoiceDefaultThreshold]

/-- Claim C2, amended.  The primary-path default threshold and the fallback
backend's threshold are one and the same value, `0.6`; the two backends do
share one default threshold. -/
theorem C2_equal_default_thresholds :
    verifyVoiceDefaultThreshold = mockVerifierThreshold ∧
    verifyVoiceDefaultThreshold = 3/5 := by
  exact ⟨rfl, rfl⟩

/-- Claim C3: for every pair of non-`None` fingerprints and every
perturbation in `[-0.05, 0.05]`, the fallback similarity equals the clamp
to `[0, 1]` of (weighted sum of per-feature similarities
`max(0, 1 - |diff| * scale)`) plus the perturbation; the feature weights
sum to 1, and the final score lies in `[0, 1]`. -/
theorem C3_fallback_similarity_formula (f1 f2 : Fingerprint) (v : ℚ)
    (h1 : -(1/20) ≤ v) (h2 : v ≤ 1/20) :
    calculateSpeakerSimilarity (some f1) (some f2) v
        = max 0 (min 1 (totalSimilarity f1 f2 + v)) ∧
    totalWeight = 1 ∧
    0 ≤ calculateSpeakerSimilarity (some f1) (some f2) v ∧
    calculateSpeakerSimilarity (some f1) (some f2) v ≤ 1 := by
  refine ⟨?_, totalWeight_eq_one, ?_, ?_⟩
  · unfold calculateSpeakerSimilarity baseSimilarity
    rw [totalWeight_eq_one]
    norm_num
  · exact le_max_left _ _
  · exact max_le (by norm_num) (min_le_left _ _)

/-- Claim C3, witness: the formula theorem applied to two zero fingerprints
with perturbation `1/20`. -/
theorem C3_witness :
    (-(1/20) ≤ (1/20 : ℚ) ∧ (1/20 : ℚ) ≤ 1/20) ∧
    (calculateSpeakerSimilarity (some zeroFingerprint) (some zeroFingerprint) (1/20)
        = max 0 (min 1 (totalSimilarity zeroFingerprint zeroFingerprint + 1/20)) ∧
      totalWeight = 1 ∧
      0 ≤ calculateSpeakerSimilarity (some zeroFingerprint) (some zeroFingerprint) (1/20) ∧
      calculateSpeakerSimilarity (some zeroFingerprint) (some zeroFingerprint) (1/20) ≤ 1) :=
  ⟨⟨by norm_num, by norm_num⟩,
    C3_fallback_similarity_formula zeroFingerprint zeroFingerprint (1/20)
      (by norm_num) (by norm_num)⟩

/-- Claim C4: when fingerprint extraction returned the `None` sentinel for
either input, the fallback similarity is exactly `0`, the decision
`score > threshold` is `false` for every positive threshold, and the mock
verifier's own prediction is `false`: the comparison fails closed. -/
theorem C4_fail_closed (fp1 fp2 : Option Fingerprint) (v : ℚ)
    (h : fp1 = none ∨ fp2 = none) :
    calculateSpeakerSimilarity fp1 fp2 v = 0 ∧
    (∀ t : ℚ, 0 < t → ¬ (t < calculateSpeakerSimilarity fp1 fp2 v)) ∧
    (mockVerifyFiles fp1 fp2 v).2 = false := by
  have h0 : calculateSpeakerSimilarity fp1 fp2 v = 0 := by
    rcases h with rfl | rfl
    · cases fp2 <;> rfl
    · cases fp1 <;> rfl
  refine ⟨h0, ?_, ?_⟩
  · intro t ht
    rw [h0]
    exact not_lt.mpr (le_of_lt ht)
  · simp only [mockVerifyFiles, h0, mockVerifierThreshold, decide_eq_false_iff_not]
    norm_num

/-- Claim C4, witness: the fail-closed theorem applied to a failed reference
extraction against a concrete test fingerprint. -/
theorem C4_witness :
    ((none : Option Fingerprint) = none ∨ (some zeroFingerprint : Option Fingerprint) = none) ∧
    (calculateSpeakerSimilarity none (some zeroFingerprint) 0 = 0 ∧
      (∀ t : ℚ, 0 < t → ¬ (t < calculateSpeakerSimilarity none (some zeroFingerprint) 0)) ∧
      (mockVerifyFiles none (some zeroFingerprint) 0).2 = false) :=
  ⟨Or.inl rfl, C4_fail_closed none (some zeroFingerprint) 0 (Or.inl rfl)⟩

/-- Claim C5: for a nonempty byte blob on which every decoding attempt
failed, `process_web_audio` does not raise: it substitutes the synthesized
placeholder tone — mono, at the target rate, `10 * target_sr` samples
(10 s) — which passes unchanged through the resample/mono/pad sections, and
the call returns successfully. -/
theorem C5_placeholder_on_decode_failure (t : Nat) (u : String) (n : Nat) (hn : 0 < n) :
    processWebAudio t u n none = some ⟨u ++ ".wav", placeholderWave t⟩ ∧
    (placeholderWave t).channels = 1 ∧
    (placeholderWave t).sr = t ∧
    (placeholderWave t).count = t * 10 :=
  ⟨processWebAudio_undecodable t u n hn, rfl, rfl, rfl⟩

/-- Claim C5, witness: the theorem applied at the default 16000 Hz target
rate and a 5-byte undecodable blob. -/
theorem C5_witness :
    0 < 5 ∧
    (processWebAudio 16000 "a" 5 none = some ⟨"a" ++ ".wav", placeholderWave 16000⟩ ∧
      (placeholderWave 16000).channels = 1 ∧
      (placeholderWave 16000).sr = 16000 ∧
      (placeholderWave 16000).count = 16000 * 10) :=
  ⟨by decide, C5_placeholder_on_decode_failure 16000 "a" 5 (by decide)⟩

/-- Claim C6, counterexample.  For an undecodable 5-byte blob the value
`process_web_audio` hands back is identical to the one produced for a
genuinely decoded 10 s mono 16 kHz recording: an output path of the very
same shape pointing at a processed waveform of the very same
characteristics, with no field, flag, marker or message recording that the
placeholder was substituted.  The substitution is observable only in the
server log, not in the result. -/
theorem C6_silent_counterexample :
    processWebAudio 16000 "u" 5 none
        = processWebAudio 16000 "u" 5 (some ⟨1, 16000, 160000⟩) ∧
    (processWebAudio 16000 "u" 5 none).isSome = true :=
  ⟨rfl, rfl⟩

/-- Claim C6, amended.  When every decode attempt fails, the substitution of
the placeholder is silent at the interface: the return value coincides
exactly with what a successful decode of an identically-shaped waveform
would produce, so no caller can distinguish the two from the result; the
only diagnostic signal is a server-side log line. -/
theorem C6_placeholder_not_flagged (u : String) (n : Nat) :
    processWebAudio 16000 u n none
        = processWebAudio 16000 u n (some (placeholderWave 16000)) := rfl

/-- Claim C7, counterexample.  A concrete successful enrollment performs
exactly `makedirs` followed by a direct `torchaudio.save` at the final
canonical path: no write to a temporary path and no move/rename appears in
the filesystem operations of `create_voice_profile`. -/
theorem C7_direct_write_counterexample :
    createVoiceProfileOps "S1" (some ⟨1, 16000, 160000⟩)
        = [FsOp.makedirs "profiles", FsOp.save (profilePath "S1")] ∧
    (createVoiceProfileOps "S1" (some ⟨1, 16000, 160000⟩)).any FsOp.isMove = false ∧
    (createVoiceProfile "S1" (some ⟨1, 16000, 160000⟩)).1 = true := by
  have hops : createVoiceProfileOps "S1" (some ⟨1, 16000, 160000⟩)
      = [FsOp.makedirs "profiles", FsOp.save (profilePath "S1")] := by
    norm_num [createVoiceProfileOps]
  refine ⟨hops, ?_, ?_⟩
  · rw [hops]; rfl
  · norm_num [createVoiceProfile]

/-- Claim C7, amended.  Every successful enrollment writes the canonical
reference file directly at its final path with a single save call — there
is no temporary-path write and no move into place, so nothing prevents a
concurrent reader from observing a partially-written reference file. -/
theorem C7_amended_direct_save (sid : String) (w : Waveform)
    (hs : 0 < w.sr) (hd : ¬ ((w.count : ℚ) / (w.sr : ℚ) < 3)) :
    createVoiceProfile sid (some w) = (true, profilePath sid) ∧
    createVoiceProfileOps sid (some w)
        = [FsOp.makedirs "profiles", FsOp.save (profilePath sid)] ∧
    (createVoiceProfileOps sid (some w)).any FsOp.isMove = false := by
  have hsz : ¬ (w.sr = 0) := by omega
  simp only [createVoiceProfile, createVoiceProfileOps]
  rw [if_neg hsz, if_neg hd, if_neg hsz, if_neg hd]
  exact ⟨rfl, rfl, rfl⟩

/-- Claim C7, witness: the amended theorem applied to a 10 s mono 16 kHz
reference waveform. -/
theorem C7_witness :
    (0 < (⟨1, 16000, 160000⟩ : Waveform).sr ∧
      ¬ (((⟨1, 16000, 160000⟩ : Waveform).count : ℚ)
          / ((⟨1, 16000, 160000⟩ : Waveform).sr : ℚ) < 3)) ∧
    (createVoiceProfile "S1" (some ⟨1, 16000, 160000⟩) = (true, profilePath "S1") ∧
      createVoiceProfileOps "S1" (some ⟨1, 16000, 160000⟩)
          = [FsOp.makedirs "profiles", FsOp.save (profilePath "S1")] ∧
      (createVoiceProfileOps "S1" (some ⟨1, 16000, 160000⟩)).any FsOp.isMove = false) :=
  ⟨⟨by norm_num, by norm_num⟩,
    C7_amended_direct_save "S1" ⟨1, 16000, 160000⟩ (by norm_num) (by norm_num)⟩

/-- Claim C8: comparing any successfully extracted fingerprint with itself
yields, for every perturbation in `[-0.05, 0.05]`, a fallback similarity in
`[0.95, 1.0]` — within the perturbation's range of the maximum. -/
theorem C8_self_similarity_near_max (f : Fingerprint) (v : ℚ)
    (h1 : -(1/20) ≤ v) (h2 : v ≤ 1/20) :
    19/20 ≤ calculateSpeakerSimilarity (some f) (some f) v ∧
    calculateSpeakerSimilarity (some f) (some f) v ≤ 1 := by
  have hbase : baseSimilarity f f = 1 := by
    unfold baseSimilarity
    rw [totalWeight_eq_one, totalSimilarity_self f]
    norm_num
  have hcalc : calculateSpeakerSimilarity (some f) (some f) v
      = max 0 (min 1 (baseSimilarity f f + v)) := rfl
  rw [hcalc, hbase]
  constructor
  · exact le_trans (le_min (by norm_num) (by linarith)) (le_max_right _ _)
  · exact max_le (by norm_num) (min_le_left _ _)

/-- Claim C8, witness: the self-similarity theorem applied to the zero
fingerprint with the worst-case perturbation `-0.05`. -/
theorem C8_witness :
    (-(1/20) ≤ (-(1/20) : ℚ) ∧ (-(1/20) : ℚ) ≤ 1/20) ∧
    (19/20 ≤ calculateSpeakerSimilarity (some zeroFingerprint) (some zeroFingerprint) (-(1/20)) ∧
      calculateSpeakerSimilarity (some zeroFingerprint) (some zeroFingerprint) (-(1/20)) ≤ 1) :=
  ⟨⟨by norm_num, by norm_num⟩,
    C8_self_similarity_near_max zeroFingerprint (-(1/20)) (by norm_num) (by norm_num)⟩

/-- Claim C9: every decodable input shorter than the 2.0 s floor comes out
of `process_web_audio` right-padded to exactly the floor duration:
`2 * 16000 = 32000` samples at the 16000 Hz target rate. -/
theorem C9_pad_to_floor (u : String) (n : Nat) (w : Waveform)
    (hn : 0 < n) (hs : 0 < w.sr) (hd : ((w.count : ℚ) / (w.sr : ℚ)) < 2) :
    ∃ r, processWebAudio 16000 u n (some w) = some r ∧
      r.wave.count = 32000 ∧ r.wave.sr = 16000 := by
  have hc : w.count < 2 * w.sr := by
    rw [div_lt_iff₀ (by exact_mod_cast hs)] at hd
    exact_mod_cast hd
  have h1c : (resampleStep 16000 w).count ≤ 32000 := by
    unfold resampleStep
    split
    · exact resampleCount_le_32000 w.count w.sr hs hc
    · rename_i h
      have hsr : w.sr = 16000 := not_not.mp h
      omega
  have h1s : (resampleStep 16000 w).sr = 16000 := by
    unfold resampleStep
    split
    · rfl
    · rename_i h
      exact not_not.mp h
  have h2c : (monoStep (resampleStep 16000 w)).count = (resampleStep 16000 w).count := by
    unfold monoStep
    split <;> rfl
  have h2s : (monoStep (resampleStep 16000 w)).sr = (resampleStep 16000 w).sr := by
    unfold monoStep
    split <;> rfl
  refine ⟨⟨u ++ ".wav", padStep 16000 (monoStep (resampleStep 16000 w))⟩, ?_, ?_, ?_⟩
  · unfold processWebAudio
    rw [if_neg (by omega)]
    rfl
  · show (padStep 16000 (monoStep (resampleStep 16000 w))).count = 32000
    unfold padStep
    split
    · rfl
    · rename_i h
      omega
  · show (padStep 16000 (monoStep (resampleStep 16000 w))).sr = 16000
    unfold padStep
    split
    · show (monoStep (resampleStep 16000 w)).sr = 16000
      rw [h2s, h1s]
    · rw [h2s, h1s]

/-- Claim C9, witness: the padding theorem applied to a 1 s recording at
8 kHz (which also exercises the resampling section). -/
theorem C9_witness :
    (0 < 5 ∧ 0 < (⟨1, 8000, 8000⟩ : Waveform).sr ∧
      ((((⟨1, 8000, 8000⟩ : Waveform).count : ℚ) / ((⟨1, 8000, 8000⟩ : Waveform).sr : ℚ)) < 2)) ∧
    (∃ r, processWebAudio 16000 "a" 5 (some ⟨1, 8000, 8000⟩) = some r ∧
      r.wave.count = 32000 ∧ r.wave.sr = 16000) :=
  ⟨⟨by decide, by decide, by norm_num⟩,
    C9_pad_to_floor "a" 5 ⟨1, 8000, 8000⟩ (by decide) (by decide) (by norm_num)⟩

/-- Claim C10: enrolling from an upload whose nonempty byte blob no decoder
can interpret nevertheless succeeds: the substituted 10 s placeholder
exceeds the 3 s enrollment minimum, so the profile is persisted at the
canonical path — garbage bytes become a stored placeholder-tone
reference. -/
theorem C10_garbage_enrollment_succeeds (sid u : String) (n : Nat) (hn : 0 < n) :
    createVoiceProfileFromUpload sid u n none = (true, profilePath sid) := by
  unfold createVoiceProfileFromUpload
  rw [processWebAudio_undecodable 16000 u n hn]
  norm_num [createVoiceProfile, placeholderWave, placeholderDurationSeconds]

/-- Claim C10, witness: the theorem applied to a 5-byte undecodable blob for
student `S1`. -/
theorem C10_witness :
    0 < 5 ∧ createVoiceProfileFromUpload "S1" "a" 5 none = (true, profilePath "S1") :=
  ⟨by decide, C10_garbage_enrollment_succeeds "S1" "a" 5 (by decide)⟩

end Vani
